import Mathlib

/-!
Verification of the BVP energy-platform core against its natural-language
specification.  We shallowly embed the Python source files:

  - `bvp/api/common/utils/api_utils.py` (resampling, data-source auto-registration)
  - `bvp/api/common/implementations.py` (task-run heartbeat endpoints)
  - `bvp/data/models/time_series.py` (`TimedValue.make_query`)
  - `bvp/data/queries/analytics.py` (the four analytics report-builders)

Python floats that matter here are only compared against the not-a-number
sentinel or combined with exact arithmetic in ways the claims inspect, so we
model them as an inductive type over the rationals with an explicit `nan`
constructor.  Fallible Python code (possible exceptions) is embedded with
`Except String`.
-/

set_option autoImplicit false

namespace BVP

/-- Model of a Python float as used by the analytics code: either the
not-a-number sentinel or an exact rational value. -/
inductive PyFloat where
  | nan : PyFloat
  | num (q : ℚ) : PyFloat
deriving DecidableEq, Repr, Inhabited

namespace PyFloat

/-- Truth of being the nan sentinel. -/
def isNan : PyFloat → Bool
  | nan => true
  | num _ => false

/-- Addition with nan propagation, as in IEEE arithmetic on the values the
analytics code produces. -/
def add : PyFloat → PyFloat → PyFloat
  | num a, num b => num (a + b)
  | _, _ => nan

/-- Subtraction with nan propagation. -/
def sub : PyFloat → PyFloat → PyFloat
  | num a, num b => num (a - b)
  | _, _ => nan

/-- Multiplication with nan propagation. -/
def mul : PyFloat → PyFloat → PyFloat
  | num a, num b => num (a * b)
  | _, _ => nan

/-- Negation with nan propagation (Python `* -1`). -/
def neg : PyFloat → PyFloat
  | num a => num (-a)
  | nan => nan

/-- Absolute value with nan propagation. -/
def pabs : PyFloat → PyFloat
  | num a => num |a|
  | nan => nan

/-- Division; division by zero yields the nan sentinel (the spec leaves the
zero-denominator case open, flagged as an open question for MAPE). -/
def div : PyFloat → PyFloat → PyFloat
  | num a, num b => if b = 0 then nan else num (a / b)
  | _, _ => nan

/-- Minimum that skips nan entries, as pandas `DataFrame.min` does. -/
def minSkipna : PyFloat → PyFloat → PyFloat
  | num a, num b => num (min a b)
  | num a, nan => num a
  | nan, num b => num b
  | nan, nan => nan

end PyFloat

/-- One cell of a pandas dataframe: a float or a string label. -/
inductive Cell where
  | fl (x : PyFloat) : Cell
  | str (s : String) : Cell
deriving DecidableEq, Repr, Inhabited

namespace Cell

/-- Read a cell as a float; a string cell has no numeric value (the analytics
code never does arithmetic on label cells). -/
def toFloat : Cell → PyFloat
  | fl x => x
  | str _ => PyFloat.nan

end Cell

/-- Extract the float readings of a column. -/
def cellFloats (l : List Cell) : List PyFloat :=
  l.map Cell.toFloat

/-- Pointwise product of two float columns (pandas series multiplication on
aligned indexes). -/
def seriesMul (a b : List PyFloat) : List PyFloat :=
  List.zipWith PyFloat.mul a b

/-- Scale every entry of a float column by a scalar. -/
def seriesScale (a : List PyFloat) (c : PyFloat) : List PyFloat :=
  a.map (fun x => PyFloat.mul x c)

/-- Sum of the non-nan entries, `numpy.nansum`: the empty and all-nan sums
are zero. -/
def nansum (l : List PyFloat) : PyFloat :=
  PyFloat.num ((l.filterMap (fun x => match x with
    | PyFloat.num q => some q
    | PyFloat.nan => none)).sum)

/-- Mean as pandas `Series.mean` computes it: skip nan entries, and yield nan
when no numeric entry remains. -/
def pdMean (l : List PyFloat) : PyFloat :=
  let vs := l.filterMap (fun x => match x with
    | PyFloat.num q => some q
    | PyFloat.nan => none)
  if vs.isEmpty then PyFloat.nan else PyFloat.num (vs.sum / vs.length)

/-- Mean as `numpy.mean` computes it: nan when the list is empty or any entry
is nan, otherwise the exact average. -/
def npMean (l : List PyFloat) : PyFloat :=
  if l.isEmpty ∨ l.any PyFloat.isNan then PyFloat.nan
  else PyFloat.num ((l.filterMap (fun x => match x with
    | PyFloat.num q => some q
    | PyFloat.nan => none)).sum / l.length)

/-- Modelled from the spec: `bvp.utils.calculations.mean_absolute_error` is
not under `src/`; the spec defines MAE = mean(|realised − forecast|). -/
def mean_absolute_error (realised forecast : List PyFloat) : PyFloat :=
  npMean (List.zipWith (fun r f => (r.sub f).pabs) realised forecast)

/-- Modelled from the spec:
`bvp.utils.calculations.mean_absolute_percentage_error` is not under `src/`;
the spec defines MAPE = mean(|realised − forecast| / |realised|) × 100, with
the zero-denominator case left open (here it yields the nan sentinel). -/
def mean_absolute_percentage_error (realised forecast : List PyFloat) : PyFloat :=
  (npMean (List.zipWith (fun r f => ((r.sub f).pabs).div r.pabs) realised forecast)).mul
    (PyFloat.num 100)

/-- Modelled from the spec:
`bvp.utils.calculations.weighted_absolute_percentage_error` is not under
`src/`; the spec defines WAPE = sum(|realised − forecast|) / sum(|realised|)
× 100. -/
def weighted_absolute_percentage_error (realised forecast : List PyFloat) : PyFloat :=
  ((nansum (List.zipWith (fun r f => (r.sub f).pabs) realised forecast)).div
    (nansum (realised.map PyFloat.pabs))).mul (PyFloat.num 100)

/-- A Python dict mapping metric names to floats, embedded as an assoc list
that keeps insertion order (Python 3.7+ dict semantics). -/
abbrev Metrics : Type := List (String × PyFloat)

namespace Metrics

/-- Python dict assignment `metrics[k] = v`: overwrite an existing key in
place, else append. -/
def set (m : Metrics) (k : String) (v : PyFloat) : Metrics :=
  if (List.any m (fun p => p.1 == k)) then
    List.map (fun p : String × PyFloat => if p.1 == k then (k, v) else p) m
  else m ++ [(k, v)]

/-- Python dict lookup `metrics.get(k)` (as an Option). -/
def lookup (m : Metrics) (k : String) : Option PyFloat :=
  (List.find? (fun p => p.1 == k) m).map Prod.snd

/-- Python dict lookup `metrics[k]`, raising a KeyError when absent. -/
def getItem (m : Metrics) (k : String) : Except String PyFloat :=
  match lookup m k with
  | some v => Except.ok v
  | none => Except.error ("KeyError: " ++ k)

end Metrics

/-- A pandas dataframe as the analytics code uses it: a row count together
with named columns of cells.  `nrows` is the length of the index; every
column holds `nrows` cells. -/
structure DataFrame where
  nrows : Nat
  data : List (String × List Cell)
deriving DecidableEq, Repr, Inhabited

namespace DataFrame

/-- The column names, `df.columns`. -/
def cols (df : DataFrame) : List String :=
  df.data.map Prod.fst

/-- pandas `df.size`: number of cells, rows × columns. -/
def size (df : DataFrame) : Nat :=
  df.nrows * df.data.length

/-- pandas `df.empty`: true when either axis has length zero. -/
def empty (df : DataFrame) : Bool :=
  df.nrows == 0 || df.data.length == 0

/-- Access a column's cells (`df.y`, `df.horizon`, ...). -/
def col (df : DataFrame) (name : String) : List Cell :=
  ((df.data.find? (fun p => p.1 == name)).map Prod.snd).getD []

/-- Access a column's cells as floats. -/
def colF (df : DataFrame) (name : String) : List PyFloat :=
  cellFloats (df.col name)

/-- Replace or append a column, `df[name] = cells`. -/
def setCol (df : DataFrame) (name : String) (cells : List Cell) : DataFrame :=
  if List.any df.data (fun p => p.1 == name) then
    { df with data := (List.map
        (fun p : String × List Cell => if p.1 == name then (name, cells) else p) df.data) }
  else { df with data := df.data ++ [(name, cells)] }

/-- pandas rename of a column from the old to the new name. -/
def renameCol (df : DataFrame) (old new : String) : DataFrame :=
  { df with data := (List.map
      (fun p : String × List Cell => if p.1 == old then (new, p.2) else p) df.data) }

/-- The frame `pd.DataFrame(index=idx, columns=cols)`: the given columns,
every cell the nan sentinel. -/
def mkNaN (nrows : Nat) (names : List String) : DataFrame :=
  ⟨nrows, names.map (fun n => (n, List.replicate nrows (Cell.fl PyFloat.nan)))⟩

end DataFrame

/-! ## `bvp/api/common/utils/api_utils.py` -/

/-- The argument shape of `convert_to_15min`: either a plain list of values or
a list of value groups (the code distinguishes them with
`isinstance(value_groups[0], list)`). -/
inductive ValueGroups where
  | flat (values : List PyFloat) : ValueGroups
  | nested (groups : List (List PyFloat)) : ValueGroups
deriving DecidableEq, Repr

/-- `convert_to_15min` from `api_utils.py`.  `from_resolution` is in minutes.
When the resolution is a whole multiple of 15 minutes, each value is
repeated `n = from_resolution / 15` times (numpy `repeat`); otherwise the
input is returned unchanged.  Indexing `value_groups[0]` on an empty list
raises IndexError, embedded as the error case. -/
def convert_to_15min (value_groups : ValueGroups) (from_resolution : Nat) :
    Except String ValueGroups :=
  if from_resolution % 15 == 0 then
    let n := from_resolution / 15
    match value_groups with
    | ValueGroups.flat [] => Except.error "IndexError: list index out of range"
    | ValueGroups.nested [] => Except.error "IndexError: list index out of range"
    | ValueGroups.flat l => Except.ok (ValueGroups.flat (l.flatMap (fun x => List.replicate n x)))
    | ValueGroups.nested gs =>
        Except.ok (ValueGroups.nested
          (gs.map (fun g => g.flatMap (fun x => List.replicate n x))))
  else Except.ok value_groups

/-- A `DataSource` row: provenance record with its user foreign key. -/
structure DataSource where
  id : Nat
  userId : Nat
deriving DecidableEq, Repr

/-- The data-source table together with the next fresh primary key. -/
structure DSState where
  sources : List DataSource
  nextId : Nat
deriving DecidableEq, Repr

/-- `get_or_create_user_data_source` from `api_utils.py`: `one_or_none` on the
rows filtered by user (raising MultipleResultsFound past one row), creating
and flushing a new record when none exists. -/
def get_or_create_user_data_source (user : Nat) (s : DSState) :
    Except String (DataSource × DSState) :=
  match s.sources.filter (fun d => d.userId == user) with
  | [] =>
      let ds : DataSource := ⟨s.nextId, user⟩
      Except.ok (ds, ⟨s.sources ++ [ds], s.nextId + 1⟩)
  | [d] => Except.ok (d, s)
  | _ => Except.error "MultipleResultsFound"

/-! ## `bvp/api/common/implementations.py` -/

/-- A `LatestTaskRun` row.  Datetimes are embedded as integers (e.g. a Unix
timestamp); the epoch `datetime(1970, 1, 1)` is 0. -/
structure TaskRun where
  name : String
  datetime : Int
  status : Bool
deriving DecidableEq, Repr

/-- The JSON body answered by the task-status endpoint. -/
structure TaskStatusResponse where
  status : String
  reason : Option String
  lastrun : Int
  frequency : Nat
deriving DecidableEq, Repr

/-- `get_task_run` from `implementations.py`.  `name` is
`request.args.get("name")` (None when the parameter is missing), `config` is
`current_app.config.get`, `store` the `LatestTaskRun` table.  The source
computes `task_name.upper()` for the frequency lookup before checking
`task_name is None`, so a missing name raises AttributeError, embedded as the
error case. -/
def get_task_run (name : Option String) (config : String → Option Nat)
    (store : List TaskRun) : Except String (TaskStatusResponse × Nat) :=
  match name with
  | none => Except.error "AttributeError: NoneType object has no attribute upper"
  | some task_name =>
    let frequency := (config ("MONITOR_FREQUENCY_" ++ task_name.toUpper)).getD 10
    if task_name == "" then
      Except.ok (⟨"ERROR", some "No task name given.", 0, frequency⟩, 400)
    else
      match store.find? (fun r => r.name == task_name) with
      | none =>
          Except.ok
            (⟨"ERROR", some ("Task " ++ task_name ++ " has no last run time."), 0, frequency⟩,
              400)
      | some last_run =>
          Except.ok
            (⟨if last_run.status then "OK" else "ERROR", none, last_run.datetime, frequency⟩,
              200)

/-- The JSON body answered by the task-heartbeat endpoint. -/
structure PostResponse where
  status : String
  reason : Option String
deriving DecidableEq, Repr

/-- The status form-field parse on line 60 of `implementations.py`:
`request.form.get("status", "True") == "True"`. -/
def post_task_run_status_field (status_field : Option String) : Bool :=
  status_field.getD "True" == "True"

/-- `post_task_run` from `implementations.py`.  The three optional form
fields, the current time, the `LatestTaskRun` table, and whether
`db.session.commit()` succeeds are explicit arguments; the result is the
HTTP response paired with the committed table (a failed commit rolls the
table back). -/
def post_task_run (name_field : Option String) (datetime_field : Option Int)
    (status_field : Option String) (now : Int) (store : List TaskRun)
    (commit_ok : Bool) : (PostResponse × Nat) × List TaskRun :=
  let task_name := name_field.getD ""
  if task_name == "" then
    ((⟨"ERROR", some "No task name given."⟩, 400), store)
  else
    let date_time := datetime_field.getD now
    let status := post_task_run_status_field status_field
    match store.filter (fun r => r.name == task_name) with
    | [] =>
        if commit_ok then
          ((⟨"OK", none⟩, 200), store ++ [⟨task_name, date_time, status⟩])
        else ((⟨"ERROR", some "commit failed"⟩, 500), store)
    | [_] =>
        if commit_ok then
          ((⟨"OK", none⟩, 200),
            store.map (fun r =>
              if r.name == task_name then ⟨task_name, date_time, status⟩ else r))
        else ((⟨"ERROR", some "commit failed"⟩, 500), store)
    | _ => ((⟨"ERROR", some "MultipleResultsFound"⟩, 500), store)

/-! ## `bvp/data/models/time_series.py` -/

/-- A `TimedValue` row: event time, signed horizon, provenance and reading.
Times and durations are embedded as integers. -/
structure TVRow where
  datetime : Int
  horizon : Int
  data_source_id : Nat
  value : ℚ
deriving DecidableEq, Repr

/-- The per-asset value tables, keyed by the asset's unique name. -/
abbrev AssetDB : Type := List (String × List TVRow)

/-- The stored rows of one asset: lookup by unique name, an unknown name
holding no rows. -/
def asset_rows (db : AssetDB) (asset_name : String) : List TVRow :=
  ((db.find? (fun p => p.1 == asset_name)).map Prod.snd).getD []

/-- Modelled from the spec: `create_beliefs_query` lives in
`bvp/data/queries/utils.py`, which is not under `src/`.  Per the spec it
selects the rows of the asset identified by `asset_name` whose event time
falls in the half-open window `[start, stop)`; an unknown asset name yields
an empty result, not an exception. -/
def create_beliefs_query (db : AssetDB) (asset_name : String) (start stop : Int) :
    List TVRow :=
  (asset_rows db asset_name).filter
    (fun r => decide (start ≤ r.datetime) && decide (r.datetime < stop))

/-- Modelled from the spec: `add_horizon_filter` lives in
`bvp/data/queries/utils.py`, which is not under `src/`.  Per the spec the
horizon window `(short, long)` keeps rows whose horizon lies within the
bounds, `none` meaning unbounded on that side; with `rolling` the horizon is
each row's own stored horizon (relative to its own event time), otherwise it
is taken relative to the fixed belief time (defaulting to the window end).
A supplied `belief_time` additionally keeps only rows already known then,
`belief_time ≥ datetime + horizon`. -/
def add_horizon_filter (q : List TVRow) (stop : Int)
    (horizon_window : Option Int × Option Int) (rolling : Bool)
    (belief_time : Option Int) : List TVRow :=
  q.filter (fun r =>
    let h : Int := if rolling then r.horizon else r.datetime - belief_time.getD stop
    (match horizon_window.1 with
      | some short => decide (short ≤ h)
      | none => true) &&
    (match horizon_window.2 with
      | some long => decide (h ≤ long)
      | none => true) &&
    (match belief_time with
      | some bt => decide (r.datetime + r.horizon ≤ bt)
      | none => true))

/-- `TimedValue.make_query` from `bvp/data/models/time_series.py`: build the
beliefs query for the query window, then add the horizon filter.  The
`asset_class` and `session` arguments are ORM plumbing, embedded as the
`AssetDB` holding each asset's rows. -/
def make_query (db : AssetDB) (asset_name : String) (query_window : Int × Int)
    (horizon_window : Option Int × Option Int) (rolling : Bool)
    (belief_time : Option Int) : List TVRow :=
  let start := query_window.1
  let stop := query_window.2
  add_horizon_filter (create_beliefs_query db asset_name start stop) stop
    horizon_window rolling belief_time

/-! ## `bvp/data/queries/analytics.py`

The four report-builders fetch their series through `Resource.get_data` /
`collect` from the ambient session; those fetched dataframes and the ambient
configuration (`power_hour_factor`, from `session["resolution"]`) are
explicit arguments of the embeddings, per the spec's note that ambient
context becomes parameters. -/

/-- `get_power_data`: negate for pure consumption, rename the forecast value
column, record the realised total, and compute the four forecast metrics
only when the forecast frame is non-empty and the sizes match, else set all
four to nan. -/
def get_power_data (showing_pure_consumption_data : Bool) (metrics : Metrics)
    (power_data power_forecast_data : DataFrame) (power_hour_factor : PyFloat) :
    DataFrame × DataFrame × Metrics :=
  let pdta := if showing_pure_consumption_data then
      power_data.setCol "y" ((power_data.colF "y").map (fun x => Cell.fl x.neg))
    else power_data
  let pfd0 := if showing_pure_consumption_data then
      power_forecast_data.setCol "y"
        ((power_forecast_data.colF "y").map (fun x => Cell.fl x.neg))
    else power_forecast_data
  let pfd := pfd0.renameCol "y" "yhat"
  let realised_power_in_mwh := seriesScale (pdta.colF "y") power_hour_factor
  let m1 := if !pdta.empty then
      metrics.set "realised_power_in_mwh" (nansum realised_power_in_mwh)
    else metrics
  let m2 :=
    if !pfd.empty && pfd.size == pdta.size then
      let expected_power_in_mwh := seriesScale (pfd.colF "yhat") power_hour_factor
      (((m1.set "expected_power_in_mwh" (nansum expected_power_in_mwh)).set
          "mae_power_in_mwh"
          (mean_absolute_error realised_power_in_mwh expected_power_in_mwh)).set
          "mape_power"
          (mean_absolute_percentage_error realised_power_in_mwh expected_power_in_mwh)).set
          "wape_power"
          (weighted_absolute_percentage_error realised_power_in_mwh expected_power_in_mwh)
    else
      (((m1.set "expected_power_in_mwh" PyFloat.nan).set
          "mae_power_in_mwh" PyFloat.nan).set
          "mape_power" PyFloat.nan).set
          "wape_power" PyFloat.nan
  (pdta, pfd, m2)

/-- `get_prices_data`: record the realised mean unit price, rename the
forecast value column, and compute the four forecast metrics only when the
forecast frame is non-empty and the sizes match, else set all four to nan. -/
def get_prices_data (metrics : Metrics) (prices_data prices_forecast_data : DataFrame) :
    DataFrame × DataFrame × Metrics :=
  let m1 := metrics.set "realised_unit_price" (pdMean (prices_data.colF "y"))
  let pfd := prices_forecast_data.renameCol "y" "yhat"
  let m2 :=
    if !pfd.empty && pfd.size == prices_data.size then
      (((m1.set "expected_unit_price" (pdMean (pfd.colF "yhat"))).set
          "mae_unit_price"
          (mean_absolute_error (prices_data.colF "y") (pfd.colF "yhat"))).set
          "mape_unit_price"
          (mean_absolute_percentage_error (prices_data.colF "y") (pfd.colF "yhat"))).set
          "wape_unit_price"
          (weighted_absolute_percentage_error (prices_data.colF "y") (pfd.colF "yhat"))
    else
      (((m1.set "expected_unit_price" PyFloat.nan).set
          "mae_unit_price" PyFloat.nan).set
          "mape_unit_price" PyFloat.nan).set
          "wape_unit_price" PyFloat.nan
  (prices_data, pfd, m2)

/-- `get_weather_data`: take the first asset (IndexError on an empty list),
find the closest sensor for the requested sensor type (the geo lookup
`find_closest_weather_sensor` is not under `src/` and is passed as a
function); with no sensor both frames are the empty `pd.DataFrame()` and the
metrics are left untouched, otherwise proceed like the price pipeline. -/
def get_weather_data (assets : List String) (metrics : Metrics)
    (sensor_type_name : Option String)
    (find_closest : String → String → Option String)
    (weather_data weather_forecast_data : DataFrame) :
    Except String (DataFrame × DataFrame × String × Option String × Metrics) :=
  match assets with
  | [] => Except.error "IndexError: list index out of range"
  | asset :: _ =>
    let closest_sensor := match sensor_type_name with
      | some tn => find_closest tn asset
      | none => none
    let stn := sensor_type_name.getD ""
    match closest_sensor with
    | none => Except.ok (⟨0, []⟩, ⟨0, []⟩, stn, none, metrics)
    | some sensor =>
      let m1 := metrics.set "realised_weather" (pdMean (weather_data.colF "y"))
      let wfd := weather_forecast_data.renameCol "y" "yhat"
      let m2 :=
        if !wfd.empty && wfd.size == weather_data.size then
          (((m1.set "expected_weather" (pdMean (wfd.colF "yhat"))).set
              "mae_weather"
              (mean_absolute_error (weather_data.colF "y") (wfd.colF "yhat"))).set
              "mape_weather"
              (mean_absolute_percentage_error (weather_data.colF "y") (wfd.colF "yhat"))).set
              "wape_weather"
              (weighted_absolute_percentage_error (weather_data.colF "y") (wfd.colF "yhat"))
        else
          (((m1.set "expected_weather" PyFloat.nan).set
              "mae_weather" PyFloat.nan).set
              "mape_weather" PyFloat.nan).set
              "wape_weather" PyFloat.nan
      Except.ok (weather_data, wfd, stn, some sensor, m2)

/-- `get_revenues_costs_data`: derive revenue/cost series as power × hour
factor × price × unit factor; record the realised total unless power or
price data is empty; compute the forecast metrics only when all four frames
are non-empty and of equal size, else set expected/MAE/MAPE (not WAPE) to
nan.  Reading `metrics["wape_power"]` and `metrics["wape_unit_price"]` in
the computed branch raises KeyError when absent, embedded as the error
case. -/
def get_revenues_costs_data
    (power_data prices_data power_forecast_data prices_forecast_data : DataFrame)
    (metrics : Metrics) (unit_factor : PyFloat) (power_hour_factor : PyFloat) :
    Except String (DataFrame × DataFrame × Metrics) :=
  let rcd0 := DataFrame.mkNaN power_data.nrows ["y", "horizon", "label"]
  let rcf0 := DataFrame.mkNaN power_data.nrows ["yhat", "yhat_upper", "yhat_lower"]
  let step1 : DataFrame × Metrics :=
    if power_data.empty || prices_data.empty then
      (rcd0, metrics.set "realised_revenues_costs" PyFloat.nan)
    else
      let y := seriesScale
        (seriesMul (seriesScale (power_data.colF "y") power_hour_factor)
          (prices_data.colF "y")) unit_factor
      let rcd1 : DataFrame := ⟨power_data.nrows, [("y", y.map Cell.fl)]⟩
      let rcd2 :=
        if power_data.cols.contains "horizon" && prices_data.cols.contains "horizon" then
          rcd1.setCol "horizon"
            ((List.zipWith PyFloat.minSkipna (power_data.colF "horizon")
              (prices_data.colF "horizon")).map Cell.fl)
        else rcd1
      let rcd3 :=
        if power_data.cols.contains "label" && prices_data.cols.contains "label" then
          rcd2.setCol "label"
            (List.replicate power_data.nrows (Cell.str "Calculated from power and price data"))
        else rcd2
      (rcd3, metrics.set "realised_revenues_costs" (nansum y))
  let rcd := step1.1
  let m1 := step1.2
  if power_data.empty || prices_data.empty || power_forecast_data.empty
      || prices_forecast_data.empty
      || !(power_data.size == power_forecast_data.size
            && power_forecast_data.size == prices_data.size
            && prices_data.size == prices_forecast_data.size) then
    Except.ok (rcd, rcf0,
      ((m1.set "expected_revenues_costs" PyFloat.nan).set
        "mae_revenues_costs" PyFloat.nan).set
        "mape_revenues_costs" PyFloat.nan)
  else
    let rcf1 := DataFrame.mkNaN power_data.nrows ["yhat", "yhat_upper", "yhat_lower"]
    let rcf2 :=
      if !(power_forecast_data.empty && prices_forecast_data.empty) then
        rcf1.setCol "yhat"
          ((seriesScale
            (seriesMul (seriesScale (power_forecast_data.colF "yhat") power_hour_factor)
              (prices_forecast_data.colF "yhat")) unit_factor).map Cell.fl)
      else rcf1
    match m1.getItem "wape_power", m1.getItem "wape_unit_price" with
    | Except.ok wp, Except.ok wu =>
      let wape_factor_rev_costs :=
        ((wp.div (PyFloat.num 100)).add (wu.div (PyFloat.num 100))).div (PyFloat.num 2)
      let wape_span_rev_costs := seriesScale (rcf2.colF "yhat") wape_factor_rev_costs
      let rcf3 := rcf2.setCol "yhat_upper"
        ((List.zipWith PyFloat.add (rcf2.colF "yhat") wape_span_rev_costs).map Cell.fl)
      let rcf4 := rcf3.setCol "yhat_lower"
        ((List.zipWith PyFloat.sub (rcf3.colF "yhat") wape_span_rev_costs).map Cell.fl)
      let m2 := (((m1.set "expected_revenues_costs" (nansum (rcf4.colF "yhat"))).set
          "mae_revenues_costs"
          (mean_absolute_error (rcd.colF "y") (rcf4.colF "yhat"))).set
          "mape_revenues_costs"
          (mean_absolute_percentage_error (rcd.colF "y") (rcf4.colF "yhat"))).set
          "wape_revenues_costs"
          (weighted_absolute_percentage_error (rcd.colF "y") (rcf4.colF "yhat"))
      Except.ok (rcd, rcf4, m2)
    | Except.error e, _ => Except.error e
    | _, Except.error e => Except.error e

/-! ## Helper lemmas -/

/-- Replicating each element once and flattening is the identity. -/
theorem flatMap_replicate_one {α : Type} (l : List α) :
    l.flatMap (fun x => List.replicate 1 x) = l := by
  induction l with
  | nil => rfl
  | cons a t ih => simp only [List.flatMap_cons, ih]; rfl

/-- Dict assignment then lookup of the same key yields the new value. -/
theorem Metrics.lookup_set_self (m : Metrics) (k : String) (v : PyFloat) :
    (m.set k v).lookup k = some v := by
  unfold Metrics.set Metrics.lookup
  by_cases ha : List.any m (fun p => p.1 == k) = true
  · simp only [ha, if_true, List.find?_map]
    have hpred : ((fun p : String × PyFloat => p.1 == k) ∘
        (fun p : String × PyFloat => if p.1 == k then (k, v) else p)) =
        (fun p : String × PyFloat => p.1 == k) := by
      funext q; by_cases hq : q.1 = k <;> simp [hq]
    rw [hpred]
    obtain ⟨q, hq, hqk⟩ := List.any_eq_true.mp ha
    cases hfind : List.find? (fun p : String × PyFloat => p.1 == k) m with
    | none => exact absurd (List.find?_eq_none.mp hfind q hq) (by simpa using hqk)
    | some q0 =>
      have hq0 : q0.1 = k := by simpa using List.find?_some hfind
      simp [hq0]
  · simp only [ha, if_false, List.find?_append]
    have hnone : List.find? (fun p : String × PyFloat => p.1 == k) m = none :=
      List.find?_eq_none.mpr (by
        intro x hx
        by_contra hc
        exact ha (List.any_eq_true.mpr ⟨x, hx, by simpa using hc⟩))
    simp [hnone]

/-- Dict assignment leaves lookups of other keys unchanged. -/
theorem Metrics.lookup_set_ne (m : Metrics) (k k' : String) (v : PyFloat)
    (h : k' ≠ k) : (m.set k v).lookup k' = m.lookup k' := by
  unfold Metrics.set Metrics.lookup
  by_cases ha : List.any m (fun p => p.1 == k) = true
  · simp only [ha, if_true, List.find?_map]
    have hpred : ((fun p : String × PyFloat => p.1 == k') ∘
        (fun p : String × PyFloat => if p.1 == k then (k, v) else p)) =
        (fun p : String × PyFloat => p.1 == k') := by
      funext q
      by_cases hq : q.1 = k
      · simp [hq, h, Ne.symm h]
      · simp [hq]
    rw [hpred]
    cases hfind : List.find? (fun p : String × PyFloat => p.1 == k') m with
    | none => simp
    | some q0 =>
      have hq0 : q0.1 = k' := by simpa using List.find?_some hfind
      have hq0k : ¬ q0.1 = k := by rw [hq0]; exact h
      simp [hq0k]
  · simp only [ha, if_false, List.find?_append]
    have hsingle : List.find? (fun p : String × PyFloat => p.1 == k') [(k, v)] = none := by
      simp [Ne.symm h]
    simp [hsingle]

/-- A dataframe has zero cells exactly when one of its axes is empty. -/
theorem DataFrame.size_eq_zero_iff (df : DataFrame) :
    df.size = 0 ↔ df.empty = true := by
  simp [DataFrame.size, DataFrame.empty, Nat.mul_eq_zero, List.length_eq_zero]

/-- Renaming a column changes neither axis length. -/
theorem DataFrame.size_renameCol (df : DataFrame) (o n : String) :
    (df.renameCol o n).size = df.size := by
  simp [DataFrame.renameCol, DataFrame.size]

/-- Renaming a column preserves emptiness. -/
theorem DataFrame.empty_renameCol (df : DataFrame) (o n : String) :
    (df.renameCol o n).empty = df.empty := by
  simp [DataFrame.renameCol, DataFrame.empty]

/-- Writing to an existing column changes neither axis length. -/
theorem DataFrame.size_setCol_mem (df : DataFrame) (name : String)
    (cells : List Cell) (h : name ∈ df.cols) :
    (df.setCol name cells).size = df.size := by
  have hany : List.any df.data (fun p => p.1 == name) = true := by
    simp only [DataFrame.cols, List.mem_map] at h
    obtain ⟨p, hp, hpn⟩ := h
    exact List.any_eq_true.mpr ⟨p, hp, by simp [hpn]⟩
  simp [DataFrame.setCol, hany, DataFrame.size]

/-- Writing to an existing column preserves emptiness. -/
theorem DataFrame.empty_setCol_mem (df : DataFrame) (name : String)
    (cells : List Cell) (h : name ∈ df.cols) :
    (df.setCol name cells).empty = df.empty := by
  have hany : List.any df.data (fun p => p.1 == name) = true := by
    simp only [DataFrame.cols, List.mem_map] at h
    obtain ⟨p, hp, hpn⟩ := h
    exact List.any_eq_true.mpr ⟨p, hp, by simp [hpn]⟩
  simp [DataFrame.setCol, hany, DataFrame.empty]

/-! ## Claim theorems -/

/-- C4: `convert_to_15min` applied to the one-element list `[v]` with a
60-minute resolution returns `[v, v, v, v]`; in general, when the resolution
is a multiple of 15 minutes, each value of a non-empty list is repeated
`n = from_resolution / 15` times. -/
theorem convert_to_15min_repeats :
    (∀ v : PyFloat, convert_to_15min (ValueGroups.flat [v]) 60 =
      Except.ok (ValueGroups.flat [v, v, v, v])) ∧
    (∀ (l : List PyFloat) (k : Nat), l ≠ [] → k % 15 = 0 →
      convert_to_15min (ValueGroups.flat l) k =
        Except.ok (ValueGroups.flat (l.flatMap (fun x => List.replicate (k / 15) x)))) := by
  constructor
  · intro v; rfl
  · intro l k hl hk
    match l with
    | [] => exact absurd rfl hl
    | x :: t => simp [convert_to_15min, hk]

/-- Witness for C4 at the concrete input `[7]` at 60 minutes. -/
theorem convert_to_15min_repeats_witness :
    ([PyFloat.num 7] ≠ ([] : List PyFloat)) ∧ 60 % 15 = 0 ∧
    convert_to_15min (ValueGroups.flat [PyFloat.num 7]) 60 =
      Except.ok (ValueGroups.flat
        (([PyFloat.num 7]).flatMap (fun x => List.replicate (60 / 15) x))) :=
  ⟨by decide, by decide, convert_to_15min_repeats.2 [PyFloat.num 7] 60 (by decide) (by decide)⟩

/-- C5: `convert_to_15min` at the target 15-minute resolution is the
identity on every non-empty list of values and on every non-empty list of
value groups. -/
theorem convert_to_15min_identity_at_target :
    (∀ l : List PyFloat, l ≠ [] →
      convert_to_15min (ValueGroups.flat l) 15 = Except.ok (ValueGroups.flat l)) ∧
    (∀ gs : List (List PyFloat), gs ≠ [] →
      convert_to_15min (ValueGroups.nested gs) 15 = Except.ok (ValueGroups.nested gs)) := by
  constructor
  · intro l hl
    match l with
    | [] => exact absurd rfl hl
    | x :: t =>
      show convert_to_15min (ValueGroups.flat (x :: t)) 15 = _
      simp [convert_to_15min, flatMap_replicate_one]
  · intro gs hgs
    match gs with
    | [] => exact absurd rfl hgs
    | g :: t =>
      show convert_to_15min (ValueGroups.nested (g :: t)) 15 = _
      simp [convert_to_15min, flatMap_replicate_one]

/-- Witness for C5 at the concrete inputs `[1, 2]` and `[[1], [2]]`. -/
theorem convert_to_15min_identity_at_target_witness :
    ([PyFloat.num 1, PyFloat.num 2] ≠ ([] : List PyFloat)) ∧
    convert_to_15min (ValueGroups.flat [PyFloat.num 1, PyFloat.num 2]) 15 =
      Except.ok (ValueGroups.flat [PyFloat.num 1, PyFloat.num 2]) ∧
    ([[PyFloat.num 1], [PyFloat.num 2]] ≠ ([] : List (List PyFloat))) ∧
    convert_to_15min (ValueGroups.nested [[PyFloat.num 1], [PyFloat.num 2]]) 15 =
      Except.ok (ValueGroups.nested [[PyFloat.num 1], [PyFloat.num 2]]) :=
  ⟨by decide,
    convert_to_15min_identity_at_target.1 [PyFloat.num 1, PyFloat.num 2] (by decide),
    by decide,
    convert_to_15min_identity_at_target.2 [[PyFloat.num 1], [PyFloat.num 2]] (by decide)⟩

/-- C9: when the resolution is not a whole multiple of 15 minutes,
`convert_to_15min` returns the input unchanged, with no resampling and no
error. -/
theorem convert_to_15min_non_multiple_passthrough :
    ∀ (vg : ValueGroups) (k : Nat), k % 15 ≠ 0 →
      convert_to_15min vg k = Except.ok vg := by
  intro vg k hk
  simp [convert_to_15min, hk]

/-- Witness for C9 at the concrete resolution of 10 minutes. -/
theorem convert_to_15min_non_multiple_passthrough_witness :
    10 % 15 ≠ 0 ∧
    convert_to_15min (ValueGroups.flat [PyFloat.num 3]) 10 =
      Except.ok (ValueGroups.flat [PyFloat.num 3]) :=
  ⟨by decide, convert_to_15min_non_multiple_passthrough (ValueGroups.flat [PyFloat.num 3]) 10
    (by decide)⟩

/-- C10: the status form field parses to true exactly when absent or exactly
the string True; the values true, 1 and yes all parse to false, and the
parsed value is what `post_task_run` records in the store. -/
theorem post_task_run_status_field_spec :
    (∀ s : Option String,
      post_task_run_status_field s = true ↔ (s = none ∨ s = some "True")) ∧
    post_task_run_status_field (some "true") = false ∧
    post_task_run_status_field (some "1") = false ∧
    post_task_run_status_field (some "yes") = false ∧
    (∀ s : Option String,
      (post_task_run (some "t") none s 0 [] true).2 =
        [⟨"t", 0, post_task_run_status_field s⟩]) := by
  refine ⟨?_, by decide, by decide, by decide, ?_⟩
  · intro s
    cases s with
    | none => simp [post_task_run_status_field]
    | some str => simp [post_task_run_status_field]
  · intro s
    rfl

/-- C6 (code bug): a GET task-status request with no name parameter crashes,
because `get_task_run` computes `task_name.upper()` for the frequency lookup
before checking whether the name is missing. -/
theorem get_task_run_missing_name_raises :
    get_task_run none (fun _ => none) [] =
      Except.error "AttributeError: NoneType object has no attribute upper" := rfl

/-- C7: a missing or empty name yields ERROR 400 with the store unchanged;
otherwise the run is recorded (created when absent, updated when present)
with the datetime defaulting to now and the status defaulting to true, and
the endpoint answers OK 200, or ERROR 500 with the store rolled back when
the commit fails. -/
theorem post_task_run_spec :
    (∀ (nf : Option String) (df : Option Int) (sf : Option String) (now : Int)
      (store : List TaskRun) (commit_ok : Bool),
      nf.getD "" = "" →
      post_task_run nf df sf now store commit_ok =
        ((⟨"ERROR", some "No task name given."⟩, 400), store)) ∧
    (∀ (n : String) (df : Option Int) (sf : Option String) (now : Int)
      (store : List TaskRun),
      n ≠ "" →
      (store.filter (fun r => r.name == n) = [] →
        post_task_run (some n) df sf now store true =
          ((⟨"OK", none⟩, 200),
            store ++ [⟨n, df.getD now, post_task_run_status_field sf⟩]) ∧
        post_task_run (some n) df sf now store false =
          ((⟨"ERROR", some "commit failed"⟩, 500), store)) ∧
      (∀ tr : TaskRun, store.filter (fun r => r.name == n) = [tr] →
        post_task_run (some n) df sf now store true =
          ((⟨"OK", none⟩, 200),
            store.map (fun r =>
              if r.name == n then ⟨n, df.getD now, post_task_run_status_field sf⟩ else r)) ∧
        post_task_run (some n) df sf now store false =
          ((⟨"ERROR", some "commit failed"⟩, 500), store))) ∧
    post_task_run_status_field none = true := by
  refine ⟨?_, ?_, rfl⟩
  · intro nf df sf now store commit_ok h
    simp [post_task_run, h]
  · intro n df sf now store hn
    constructor
    · intro hfilter
      constructor <;> simp [post_task_run, hn, hfilter]
    · intro tr hfilter
      constructor <;> simp [post_task_run, hn, hfilter]

/-- Witness for C7: missing name at an arbitrary store, then a create and
an update at concrete stores. -/
theorem post_task_run_spec_witness :
    ((none : Option String).getD "" = "" ∧
      post_task_run none none none 0 [] true =
        ((⟨"ERROR", some "No task name given."⟩, 400), [])) ∧
    ("a" ≠ "" ∧ (([] : List TaskRun).filter (fun r => r.name == "a") = [] ∧
      post_task_run (some "a") none none 5 [] true =
        ((⟨"OK", none⟩, 200), [⟨"a", 5, true⟩]))) ∧
    ([(⟨"a", 1, false⟩ : TaskRun)].filter (fun r => r.name == "a") = [⟨"a", 1, false⟩] ∧
      post_task_run (some "a") (some 9) (some "x") 5 [⟨"a", 1, false⟩] true =
        ((⟨"OK", none⟩, 200), [⟨"a", 9, false⟩])) := by
  refine ⟨⟨by decide, post_task_run_spec.1 none none none 0 [] true (by decide)⟩,
    ⟨by decide, by decide, ?_⟩, by decide, ?_⟩
  · exact ((post_task_run_spec.2.1 "a" none none 5 [] (by decide)).1 (by decide)).1
  · exact ((post_task_run_spec.2.1 "a" (some 9) (some "x") 5 [⟨"a", 1, false⟩]
      (by decide)).2 ⟨"a", 1, false⟩ (by decide)).1

/-- C8: `get_or_create_user_data_source` returns a data source of the given
user, creating one only when none exists; a second call returns the same
record and changes nothing, and the at-most-one-per-user invariant is
preserved. -/
theorem get_or_create_user_data_source_spec :
    ∀ (u : Nat) (s : DSState),
      (s.sources.filter (fun d => d.userId == u)).length ≤ 1 →
      ∃ (ds : DataSource) (s2 : DSState),
        get_or_create_user_data_source u s = Except.ok (ds, s2) ∧
        ds.userId = u ∧
        get_or_create_user_data_source u s2 = Except.ok (ds, s2) ∧
        ((s.sources.filter (fun d => d.userId == u)).length = 1 → s2 = s) ∧
        (s.sources.filter (fun d => d.userId == u) = [] →
          s2.sources = s.sources ++ [⟨s.nextId, u⟩]) ∧
        (∀ v : Nat, (s.sources.filter (fun d => d.userId == v)).length ≤ 1 →
          (s2.sources.filter (fun d => d.userId == v)).length ≤ 1) := by
  intro u s hinv
  cases hf : s.sources.filter (fun d => d.userId == u) with
  | nil =>
    refine ⟨⟨s.nextId, u⟩, ⟨s.sources ++ [⟨s.nextId, u⟩], s.nextId + 1⟩, ?_, rfl, ?_, ?_, ?_, ?_⟩
    · simp [get_or_create_user_data_source, hf]
    · simp [get_or_create_user_data_source, List.filter_append, hf]
    · intro h1; simp at h1
    · intro _; rfl
    · intro v hv
      by_cases hvu : v = u
      · subst hvu
        simp [List.filter_append, hf]
      · simp only [List.filter_append]
        have : List.filter (fun d : DataSource => d.userId == v) [⟨s.nextId, u⟩] = [] := by
          simp [Ne.symm hvu]
        rw [this, List.append_nil]
        exact hv
  | cons d t =>
    cases t with
    | nil =>
      have hd : d ∈ s.sources.filter (fun x => x.userId == u) := by
        rw [hf]; exact List.mem_singleton.mpr rfl
      have hdu : d.userId = u := by
        have := (List.mem_filter.mp hd).2
        simpa using this
      refine ⟨d, s, ?_, hdu, ?_, fun _ => rfl, ?_, fun v hv => hv⟩
      · simp [get_or_create_user_data_source, hf]
      · simp [get_or_create_user_data_source, hf]
      · intro h0; simp at h0
    | cons d2 t2 =>
      rw [hf] at hinv
      simp at hinv

/-- Witness for C8 at a fresh user over the empty table. -/
theorem get_or_create_user_data_source_spec_witness :
    ((DSState.mk [] 0).sources.filter (fun d => d.userId == 1)).length ≤ 1 ∧
    ∃ (ds : DataSource) (s2 : DSState),
      get_or_create_user_data_source 1 ⟨[], 0⟩ = Except.ok (ds, s2) ∧
      ds.userId = 1 ∧
      get_or_create_user_data_source 1 s2 = Except.ok (ds, s2) ∧
      (((DSState.mk [] 0).sources.filter (fun d => d.userId == 1)).length = 1 →
        s2 = ⟨[], 0⟩) ∧
      ((DSState.mk [] 0).sources.filter (fun d => d.userId == 1) = [] →
        s2.sources = (DSState.mk [] 0).sources ++ [⟨(DSState.mk [] 0).nextId, 1⟩]) ∧
      (∀ v : Nat,
        ((DSState.mk [] 0).sources.filter (fun d => d.userId == v)).length ≤ 1 →
        (s2.sources.filter (fun d => d.userId == v)).length ≤ 1) :=
  ⟨by decide, get_or_create_user_data_source_spec 1 ⟨[], 0⟩ (by decide)⟩

/-- C2: with `rolling` true and horizon window `(None, 0)`, `make_query`
selects exactly the stored rows of the asset that fall in the query window
and carry a horizon of at most zero (measurements and backward-looking
beliefs), hence no row with a positive horizon. -/
theorem make_query_rolling_backward_beliefs :
    ∀ (db : AssetDB) (asset_name : String) (start stop : Int) (r : TVRow),
      r ∈ make_query db asset_name (start, stop) (none, some 0) true none ↔
        (r ∈ asset_rows db asset_name ∧ start ≤ r.datetime ∧ r.datetime < stop ∧
          r.horizon ≤ 0) := by
  intro db asset_name start stop r
  simp only [make_query, add_horizon_filter, create_beliefs_query]
  constructor
  · intro hm
    obtain ⟨hm1, hp2⟩ := List.mem_filter.mp hm
    obtain ⟨hm0, hp1⟩ := List.mem_filter.mp hm1
    refine ⟨hm0, ?_, ?_, ?_⟩
    · simpa using (Bool.and_eq_true_iff.mp hp1).1
    · simpa using (Bool.and_eq_true_iff.mp hp1).2
    · simpa using hp2
  · rintro ⟨hm0, h1, h2, h3⟩
    refine List.mem_filter.mpr ⟨List.mem_filter.mpr ⟨hm0, ?_⟩, ?_⟩
    · simp [h1, h2]
    · simpa using h3

/-- C3: `get_revenues_costs_data` on empty power or price data answers the
realised-revenues metric as nan, raises nothing, and returns the two all-nan
dataframes shaped by the power index together with the metrics mapping. -/
theorem get_revenues_costs_data_empty_input :
    ∀ (power_data prices_data power_forecast_data prices_forecast_data : DataFrame)
      (metrics : Metrics) (unit_factor power_hour_factor : PyFloat),
      power_data.empty = true ∨ prices_data.empty = true →
      ∃ mout : Metrics,
        get_revenues_costs_data power_data prices_data power_forecast_data
            prices_forecast_data metrics unit_factor power_hour_factor =
          Except.ok (DataFrame.mkNaN power_data.nrows ["y", "horizon", "label"],
            DataFrame.mkNaN power_data.nrows ["yhat", "yhat_upper", "yhat_lower"],
            mout) ∧
        mout.lookup "realised_revenues_costs" = some PyFloat.nan := by
  intro power_data prices_data power_forecast_data prices_forecast_data
    metrics unit_factor power_hour_factor h
  have hkey : ((((metrics.set "realised_revenues_costs" PyFloat.nan).set
      "expected_revenues_costs" PyFloat.nan).set
      "mae_revenues_costs" PyFloat.nan).set
      "mape_revenues_costs" PyFloat.nan).lookup "realised_revenues_costs" =
        some PyFloat.nan := by
    rw [Metrics.lookup_set_ne _ _ _ _ (by decide),
      Metrics.lookup_set_ne _ _ _ _ (by decide),
      Metrics.lookup_set_ne _ _ _ _ (by decide),
      Metrics.lookup_set_self]
  cases h with
  | inl h => exact ⟨_, by simp [get_revenues_costs_data, h], hkey⟩
  | inr h => exact ⟨_, by simp [get_revenues_costs_data, h], hkey⟩

/-- Witness for C3 on concrete empty frames. -/
theorem get_revenues_costs_data_empty_input_witness :
    ((DataFrame.mk 0 [("y", [])]).empty = true ∨
      (DataFrame.mk 0 [("y", [])]).empty = true) ∧
    ∃ mout : Metrics,
      get_revenues_costs_data ⟨0, [("y", [])]⟩ ⟨0, [("y", [])]⟩ ⟨0, [("y", [])]⟩
          ⟨0, [("y", [])]⟩ [] (PyFloat.num 1) (PyFloat.num 1) =
        Except.ok (DataFrame.mkNaN (DataFrame.mk 0 [("y", [])]).nrows ["y", "horizon", "label"],
          DataFrame.mkNaN (DataFrame.mk 0 [("y", [])]).nrows
            ["yhat", "yhat_upper", "yhat_lower"],
          mout) ∧
      mout.lookup "realised_revenues_costs" = some PyFloat.nan :=
  ⟨Or.inl (by decide),
    get_revenues_costs_data_empty_input ⟨0, [("y", [])]⟩ ⟨0, [("y", [])]⟩ ⟨0, [("y", [])]⟩
      ⟨0, [("y", [])]⟩ [] (PyFloat.num 1) (PyFloat.num 1) (Or.inl (by decide))⟩

/-- An empty frame carrying only the value column, as `create_if_empty`
collects produce. -/
def dfEmptyY : DataFrame := ⟨0, [("y", [])]⟩

/-- A one-row frame carrying only the value column. -/
def dfOneY : DataFrame := ⟨1, [("y", [Cell.fl (PyFloat.num 2)])]⟩

/-- C1 fails as stated: on all-empty inputs `get_revenues_costs_data` sets
MAE to nan but never touches the WAPE key, and `get_weather_data` with no
sensor found returns the metrics mapping untouched instead of setting the
four weather metrics to nan. -/
theorem analytics_nan_metrics_counterexample :
    (get_revenues_costs_data dfEmptyY dfEmptyY dfEmptyY dfEmptyY []
        (PyFloat.num 1) (PyFloat.num 1)).toOption.map
      (fun t => (t.2.2.lookup "mae_revenues_costs", t.2.2.lookup "wape_revenues_costs")) =
      some (some PyFloat.nan, none) ∧
    (get_weather_data ["a"] [] none (fun _ _ => none) dfEmptyY dfEmptyY).toOption.map
      (fun t => t.2.2.2.2) = some [] := by
  constructor
  · rfl
  · rfl

/-- The metric-computation guard of the report-builders is false whenever
either frame is empty or the sizes differ. -/
theorem cond_false_of_mismatch (d f : DataFrame)
    (h : d.empty = true ∨ f.empty = true ∨ d.size ≠ f.size) :
    (!f.empty && f.size == d.size) = false := by
  rcases h with h | h | h
  · by_cases hf : f.empty = true
    · simp [hf]
    · have hds : d.size = 0 := (DataFrame.size_eq_zero_iff d).mpr h
      have hfs : ¬ f.size = 0 := fun hz => hf ((DataFrame.size_eq_zero_iff f).mp hz)
      have hbeq : (f.size == d.size) = false := by
        rw [hds]
        simpa using hfs
      simp [hbeq]
  · simp [h]
  · have hbeq : (f.size == d.size) = false := by
      simpa using fun he => h he.symm
    simp [hbeq]

/-- C1 (amended): whenever the realised and forecast series have differing
sizes or either is empty, `get_power_data`, `get_prices_data` and
`get_weather_data` (when a sensor is found) set all four dependent metrics
to nan and raise nothing; `get_revenues_costs_data` under the analogous
condition sets the expected value, MAE and MAPE to nan but leaves the WAPE
key unchanged, and raises nothing; `get_weather_data` with no sensor found
returns the metrics mapping unchanged. -/
theorem analytics_nan_metrics_on_mismatch :
    (∀ (showing : Bool) (metrics : Metrics) (pdf pff : DataFrame) (hf : PyFloat),
      "y" ∈ pdf.cols → "y" ∈ pff.cols →
      (pdf.empty = true ∨ pff.empty = true ∨ pdf.size ≠ pff.size) →
      ((get_power_data showing metrics pdf pff hf).2.2.lookup "expected_power_in_mwh" =
          some PyFloat.nan ∧
        (get_power_data showing metrics pdf pff hf).2.2.lookup "mae_power_in_mwh" =
          some PyFloat.nan ∧
        (get_power_data showing metrics pdf pff hf).2.2.lookup "mape_power" =
          some PyFloat.nan ∧
        (get_power_data showing metrics pdf pff hf).2.2.lookup "wape_power" =
          some PyFloat.nan)) ∧
    (∀ (metrics : Metrics) (prd prf : DataFrame),
      (prd.empty = true ∨ prf.empty = true ∨ prd.size ≠ prf.size) →
      ((get_prices_data metrics prd prf).2.2.lookup "expected_unit_price" =
          some PyFloat.nan ∧
        (get_prices_data metrics prd prf).2.2.lookup "mae_unit_price" =
          some PyFloat.nan ∧
        (get_prices_data metrics prd prf).2.2.lookup "mape_unit_price" =
          some PyFloat.nan ∧
        (get_prices_data metrics prd prf).2.2.lookup "wape_unit_price" =
          some PyFloat.nan)) ∧
    (∀ (a : String) (rest : List String) (metrics : Metrics) (tn sensor : String)
      (fc : String → String → Option String) (wd wfd : DataFrame),
      fc tn a = some sensor →
      (wd.empty = true ∨ wfd.empty = true ∨ wd.size ≠ wfd.size) →
      ∃ out, get_weather_data (a :: rest) metrics (some tn) fc wd wfd = Except.ok out ∧
        out.2.2.2.2.lookup "expected_weather" = some PyFloat.nan ∧
        out.2.2.2.2.lookup "mae_weather" = some PyFloat.nan ∧
        out.2.2.2.2.lookup "mape_weather" = some PyFloat.nan ∧
        out.2.2.2.2.lookup "wape_weather" = some PyFloat.nan) ∧
    (∀ (a : String) (rest : List String) (metrics : Metrics) (stn : Option String)
      (fc : String → String → Option String) (wd wfd : DataFrame),
      (match stn with | some tn => fc tn a | none => none) = none →
      ∃ out, get_weather_data (a :: rest) metrics stn fc wd wfd = Except.ok out ∧
        out.2.2.2.2 = metrics) ∧
    (∀ (pdf prd pff prf : DataFrame) (metrics : Metrics) (uf hf : PyFloat),
      (pdf.empty = true ∨ prd.empty = true ∨ pff.empty = true ∨ prf.empty = true ∨
        ¬(pdf.size = pff.size ∧ pff.size = prd.size ∧ prd.size = prf.size)) →
      ∃ out, get_revenues_costs_data pdf prd pff prf metrics uf hf = Except.ok out ∧
        out.2.2.lookup "expected_revenues_costs" = some PyFloat.nan ∧
        out.2.2.lookup "mae_revenues_costs" = some PyFloat.nan ∧
        out.2.2.lookup "mape_revenues_costs" = some PyFloat.nan ∧
        out.2.2.lookup "wape_revenues_costs" = metrics.lookup "wape_revenues_costs") := by
  refine ⟨?_, ?_, ?_, ?_, ?_⟩
  · -- power
    intro showing m pdf pff hf hy hyf h
    have hpdE : (if showing then
        pdf.setCol "y" ((pdf.colF "y").map (fun x => Cell.fl x.neg)) else pdf).empty =
        pdf.empty := by
      cases showing with
      | false => rfl
      | true => exact DataFrame.empty_setCol_mem pdf "y" _ hy
    have hpdS : (if showing then
        pdf.setCol "y" ((pdf.colF "y").map (fun x => Cell.fl x.neg)) else pdf).size =
        pdf.size := by
      cases showing with
      | false => rfl
      | true => exact DataFrame.size_setCol_mem pdf "y" _ hy
    have hpfE : ((if showing then
        pff.setCol "y" ((pff.colF "y").map (fun x => Cell.fl x.neg)) else pff).renameCol
          "y" "yhat").empty = pff.empty := by
      rw [DataFrame.empty_renameCol]
      cases showing with
      | false => rfl
      | true => exact DataFrame.empty_setCol_mem pff "y" _ hyf
    have hpfS : ((if showing then
        pff.setCol "y" ((pff.colF "y").map (fun x => Cell.fl x.neg)) else pff).renameCol
          "y" "yhat").size = pff.size := by
      rw [DataFrame.size_renameCol]
      cases showing with
      | false => rfl
      | true => exact DataFrame.size_setCol_mem pff "y" _ hyf
    have hcond := cond_false_of_mismatch
      (if showing then pdf.setCol "y" ((pdf.colF "y").map (fun x => Cell.fl x.neg)) else pdf)
      ((if showing then pff.setCol "y" ((pff.colF "y").map (fun x => Cell.fl x.neg))
        else pff).renameCol "y" "yhat")
      (by rw [hpdE, hpfE, hpdS, hpfS]; exact h)
    simp only [get_power_data, hcond, Bool.false_eq_true, if_false]
    refine ⟨?_, ?_, ?_, ?_⟩
    · rw [Metrics.lookup_set_ne _ _ _ _ (by decide),
        Metrics.lookup_set_ne _ _ _ _ (by decide),
        Metrics.lookup_set_ne _ _ _ _ (by decide), Metrics.lookup_set_self]
    · rw [Metrics.lookup_set_ne _ _ _ _ (by decide),
        Metrics.lookup_set_ne _ _ _ _ (by decide), Metrics.lookup_set_self]
    · rw [Metrics.lookup_set_ne _ _ _ _ (by decide), Metrics.lookup_set_self]
    · rw [Metrics.lookup_set_self]
  · -- prices
    intro m prd prf h
    have hcond := cond_false_of_mismatch prd (prf.renameCol "y" "yhat")
      (by rw [DataFrame.empty_renameCol, DataFrame.size_renameCol]; exact h)
    simp only [get_prices_data, hcond, Bool.false_eq_true, if_false]
    refine ⟨?_, ?_, ?_, ?_⟩
    · rw [Metrics.lookup_set_ne _ _ _ _ (by decide),
        Metrics.lookup_set_ne _ _ _ _ (by decide),
        Metrics.lookup_set_ne _ _ _ _ (by decide), Metrics.lookup_set_self]
    · rw [Metrics.lookup_set_ne _ _ _ _ (by decide),
        Metrics.lookup_set_ne _ _ _ _ (by decide), Metrics.lookup_set_self]
    · rw [Metrics.lookup_set_ne _ _ _ _ (by decide), Metrics.lookup_set_self]
    · rw [Metrics.lookup_set_self]
  · -- weather with a sensor found
    intro a rest m tn sensor fc wd wfd hfc h
    have hcond := cond_false_of_mismatch wd (wfd.renameCol "y" "yhat")
      (by rw [DataFrame.empty_renameCol, DataFrame.size_renameCol]; exact h)
    simp only [get_weather_data, hfc, hcond, Bool.false_eq_true, if_false]
    refine ⟨_, rfl, ?_, ?_, ?_, ?_⟩
    · rw [Metrics.lookup_set_ne _ _ _ _ (by decide),
        Metrics.lookup_set_ne _ _ _ _ (by decide),
        Metrics.lookup_set_ne _ _ _ _ (by decide), Metrics.lookup_set_self]
    · rw [Metrics.lookup_set_ne _ _ _ _ (by decide),
        Metrics.lookup_set_ne _ _ _ _ (by decide), Metrics.lookup_set_self]
    · rw [Metrics.lookup_set_ne _ _ _ _ (by decide), Metrics.lookup_set_self]
    · rw [Metrics.lookup_set_self]
  · -- weather with no sensor found
    intro a rest m stn fc wd wfd hns
    simp only [get_weather_data, hns]
    exact ⟨_, rfl, rfl⟩
  · -- revenues/costs
    intro pdf prd pff prf m uf hf h
    have hcond2 : (pdf.empty || prd.empty || pff.empty || prf.empty
        || !(pdf.size == pff.size && pff.size == prd.size && prd.size == prf.size)) =
        true := by
      rcases h with h | h | h | h | h
      · simp [h]
      · simp [h]
      · simp [h]
      · simp [h]
      · have hb : (pdf.size == pff.size && pff.size == prd.size
            && prd.size == prf.size) = false := by
          rw [← Bool.not_eq_true]
          intro hc
          exact h (by simpa [Bool.and_eq_true_iff, and_assoc] using hc)
        simp [hb]
    simp only [get_revenues_costs_data, hcond2, if_true]
    refine ⟨_, rfl, ?_, ?_, ?_, ?_⟩
    · rw [Metrics.lookup_set_ne _ _ _ _ (by decide),
        Metrics.lookup_set_ne _ _ _ _ (by decide), Metrics.lookup_set_self]
    · rw [Metrics.lookup_set_ne _ _ _ _ (by decide), Metrics.lookup_set_self]
    · rw [Metrics.lookup_set_self]
    · rw [Metrics.lookup_set_ne _ _ _ _ (by decide),
        Metrics.lookup_set_ne _ _ _ _ (by decide),
        Metrics.lookup_set_ne _ _ _ _ (by decide)]
      split
      · rw [Metrics.lookup_set_ne _ _ _ _ (by decide)]
      · rw [Metrics.lookup_set_ne _ _ _ _ (by decide)]

/-- Witness for the amended C1: the power part at a one-row realised frame
with an empty forecast frame, and the revenues/costs part at all-empty
frames. -/
theorem analytics_nan_metrics_on_mismatch_witness :
    ("y" ∈ dfOneY.cols ∧ "y" ∈ dfEmptyY.cols ∧ dfEmptyY.empty = true ∧
      ((get_power_data false [] dfOneY dfEmptyY (PyFloat.num 1)).2.2.lookup
          "expected_power_in_mwh" = some PyFloat.nan ∧
        (get_power_data false [] dfOneY dfEmptyY (PyFloat.num 1)).2.2.lookup
          "mae_power_in_mwh" = some PyFloat.nan ∧
        (get_power_data false [] dfOneY dfEmptyY (PyFloat.num 1)).2.2.lookup
          "mape_power" = some PyFloat.nan ∧
        (get_power_data false [] dfOneY dfEmptyY (PyFloat.num 1)).2.2.lookup
          "wape_power" = some PyFloat.nan)) ∧
    (dfEmptyY.empty = true ∧
      ∃ out, get_revenues_costs_data dfEmptyY dfEmptyY dfEmptyY dfEmptyY []
          (PyFloat.num 1) (PyFloat.num 1) = Except.ok out ∧
        out.2.2.lookup "expected_revenues_costs" = some PyFloat.nan ∧
        out.2.2.lookup "mae_revenues_costs" = some PyFloat.nan ∧
        out.2.2.lookup "mape_revenues_costs" = some PyFloat.nan ∧
        out.2.2.lookup "wape_revenues_costs" =
          Metrics.lookup [] "wape_revenues_costs") :=
  ⟨⟨by decide, by decide, by decide,
      analytics_nan_metrics_on_mismatch.1 false [] dfOneY dfEmptyY (PyFloat.num 1)
        (by decide) (by decide) (Or.inr (Or.inl (by decide)))⟩,
    by decide,
    analytics_nan_metrics_on_mismatch.2.2.2.2 dfEmptyY dfEmptyY dfEmptyY dfEmptyY []
      (PyFloat.num 1) (PyFloat.num 1) (Or.inl (by decide))⟩

end BVP
